import Mathlib

/-!
Verification development for the askpass Android callback server
(askpass-android-server.py). The Python module is shallowly embedded:

* ChallengeStore is a TTL map from nonce strings to entries; the
  threading lock makes validate_and_consume atomic, so concurrent calls
  are modelled by their linearization order (an arbitrary sequence of
  sequential calls).
* AuthResult is the module-level outcome cell (an Option value plus the
  threading.Event flag).
* The external libraries (json, base64, cryptography) are modelled as
  parameters: the handler only observes parse success or failure, so a
  parse oracle captures them faithfully. An uncaught Python exception in
  the handler (AttributeError or TypeError, which the except clause at
  the bottom of do_POST does not list) closes the connection without an
  HTTP response; this is the Event.crashed outcome.
* Wall-clock time is an integer parameter threaded explicitly; the serve
  loop of run_server is modelled with a fuel bound equal to the timeout,
  matching the one-second per-iteration server timeout in the source.
-/

/-- One stored challenge: the data and the creation timestamp, mirroring
the dict literal built in ChallengeStore.add. -/
structure Entry (α : Type) where
  data : α
  created : Int
deriving DecidableEq, Repr

/-- The challenge store: a TTL plus a mapping from nonce strings to
entries, mirroring the ChallengeStore class. -/
structure ChallengeStore (α : Type) where
  ttl : Int
  challenges : List (String × Entry α)
deriving DecidableEq, Repr

/-- Remove every binding for a key from an association list; models
dict.pop removing the entry for that key. -/
def eraseKey {β : Type} (l : List (String × β)) (n : String) : List (String × β) :=
  l.filter (fun p => !(p.1 == n))

/-- Lookup of a nonce in the store, modelling dict membership. -/
def ChallengeStore.findEntry {α : Type} (s : ChallengeStore α) (n : String) : Option (Entry α) :=
  (s.challenges.find? (fun p => p.1 == n)).map (fun p => p.2)

/-- ChallengeStore.add: stores the data with the current time under the
nonce, silently overwriting any previous binding (dict assignment). -/
def ChallengeStore.add {α : Type} (s : ChallengeStore α) (n : String) (d : α) (now : Int) :
    ChallengeStore α :=
  { s with challenges := (n, { data := d, created := now }) :: eraseKey s.challenges n }

/-- ChallengeStore.validate_and_consume: pop the entry for the nonce
(removing it whether or not it is expired); return none when absent or
expired, otherwise the stored data. The lock in the source makes this
one atomic step. -/
def ChallengeStore.validate_and_consume {α : Type} (s : ChallengeStore α) (n : String)
    (now : Int) : Option α × ChallengeStore α :=
  match s.challenges.find? (fun p => p.1 == n) with
  | none => (none, s)
  | some p =>
    if now - p.2.created > s.ttl then
      (none, { s with challenges := eraseKey s.challenges n })
    else
      (some p.2.data, { s with challenges := eraseKey s.challenges n })

/-- A linearized sequence of validate_and_consume calls on one nonce at
the given times; models many (possibly concurrent, lock-serialized)
consumers of the same nonce. Returns the list of results in order. -/
def consumeMany {α : Type} : ChallengeStore α → String → List Int → List (Option α) × ChallengeStore α
  | s, _, [] => ([], s)
  | s, n, t :: ts =>
    match s.validate_and_consume n t with
    | (r, s2) =>
      match consumeMany s2 n ts with
      | (rs, s3) => (r :: rs, s3)

/-- The AuthResult cell: the stored value and the threading.Event flag. -/
structure AuthResult (α : Type) where
  result : Option α
  event : Bool
deriving DecidableEq, Repr

/-- AuthResult.set: unconditionally assigns the value and sets the
event, exactly as the two statements in the source do. -/
def AuthResult.set {α : Type} (_a : AuthResult α) (v : α) : AuthResult α :=
  { result := some v, event := true }

/-- AuthResult.wait: after blocking (or timing out) it returns whatever
is currently stored; the timing itself is not part of the value. -/
def AuthResult.wait {α : Type} (a : AuthResult α) : Option α :=
  a.result

/-- The key families the verifier distinguishes after parsing a PEM:
Ed25519, an elliptic-curve key, or anything else. -/
inductive KeyKind : Type
  | ed25519
  | ecdsa
  | other
deriving DecidableEq, Repr

/-- Abstract model of the cryptography library: loadKey returns none
when load_pem_public_key raises; edVerify and ecVerify return true when
the corresponding verify call returns without raising. -/
structure CryptoBackend where
  loadKey : String → Option KeyKind
  edVerify : String → List Nat → List Nat → Bool
  ecVerify : String → List Nat → List Nat → Bool

/-- verify_signature from the source: fail closed when the cryptography
package is unavailable, parse the key, dispatch on its family, and
collapse every library failure to false. -/
def verify_signature (hasCrypto : Bool) (cb : CryptoBackend) (pem : String)
    (msg sig : List Nat) : Bool :=
  if !hasCrypto then false
  else
    match cb.loadKey pem with
    | none => false
    | some KeyKind.ed25519 => cb.edVerify pem msg sig
    | some KeyKind.ecdsa => cb.ecVerify pem msg sig
    | some KeyKind.other => false

/-- JSON values as produced by json.loads, with Python truthiness. -/
inductive JValue : Type
  | str (s : String)
  | num (n : Int)
  | bool (b : Bool)
  | null
  | arr (xs : List JValue)
  | obj (kvs : List (String × JValue))

/-- Python truthiness of a JSON value (the `not x` tests in do_POST). -/
def JValue.truthy : JValue → Bool
  | JValue.str s => !(s == "")
  | JValue.num n => !(n == 0)
  | JValue.bool b => b
  | JValue.null => false
  | JValue.arr xs => !xs.isEmpty
  | JValue.obj kvs => !kvs.isEmpty

/-- dict.get on a parsed JSON object. -/
def jLookup (kvs : List (String × JValue)) (k : String) : Option JValue :=
  (kvs.find? (fun p => p.1 == k)).map (fun p => p.2)

/-- Truthiness of an optional field: absent (None) counts as falsy. -/
def truthyOpt : Option JValue → Bool
  | none => false
  | some v => v.truthy

/-- UTF-8 encoding of one character, modelling Python str.encode. -/
def encodeChar (c : Char) : List Nat :=
  if c.toNat < 128 then [c.toNat]
  else if c.toNat < 2048 then
    [192 ||| (c.toNat >>> 6), 128 ||| (c.toNat &&& 63)]
  else if c.toNat < 65536 then
    [224 ||| (c.toNat >>> 12), 128 ||| ((c.toNat >>> 6) &&& 63), 128 ||| (c.toNat &&& 63)]
  else
    [240 ||| (c.toNat >>> 18), 128 ||| ((c.toNat >>> 12) &&& 63),
     128 ||| ((c.toNat >>> 6) &&& 63), 128 ||| (c.toNat &&& 63)]

/-- UTF-8 bytes of a string, modelling Python str.encode. -/
def strBytes (s : String) : List Nat :=
  s.data.flatMap encodeChar

/-- The external library functions the handler calls: json.loads (none
on JSONDecodeError and the other caught parse errors), base64.b64decode
on a string argument (none on binascii.Error, a ValueError), and the
cryptography backend. -/
structure ExtLib where
  parseJson : List Nat → Option JValue
  b64decode : String → Option (List Nat)
  crypto : CryptoBackend

/-- The module-level mutable state the handler touches: the challenge
store, the outcome cell, the device public key PEM, and whether the
cryptography import succeeded. -/
structure ServerState (α : Type) where
  store : ChallengeStore α
  auth : AuthResult Bool
  pubkey : String
  hasCrypto : Bool
deriving DecidableEq

/-- Observable actions of handling one request, in order: an HTTP status
sent to the peer, a commit of the outcome cell, or an uncaught Python
exception (connection closed with no HTTP response at all). -/
inductive Event : Type
  | sent (code : Nat)
  | committed (v : Bool)
  | crashed
deriving DecidableEq, Repr

/-- One inbound HTTP request: method, path, the Content-Length header,
the body bytes on the socket, and the wall-clock time at handling. -/
structure Request where
  method : String
  path : String
  contentLength : Nat
  body : List Nat
  now : Int
deriving DecidableEq

/-- CallbackHandler.do_POST, line by line: path check (404), body-size
check against the Content-Length header (413, before any read of the
body), JSON parse (400 on failure via the except clause), the falsy-field
check (400), validate_and_consume (403 when it yields none), base64
decoding of the signature (400 on binascii.Error — note this runs after
the nonce is already consumed), signature verification (403 on false),
and on success the 200 response followed by auth_result.set(True).
A truthy non-string nonce is a hashable non-key (403) for numbers and
booleans but raises uncaught TypeError for lists and dicts; a parsed
body that is not a JSON object raises uncaught AttributeError at
payload.get; a truthy non-string signature raises uncaught TypeError
inside b64decode — those paths crash the handler without a response. -/
def doPost {α : Type} (ext : ExtLib) (st : ServerState α) (req : Request) :
    List Event × ServerState α :=
  if req.path != ("/auth/response") then ([Event.sent 404], st)
  else if req.contentLength > 4096 then ([Event.sent 413], st)
  else
    match ext.parseJson (req.body.take req.contentLength) with
    | none => ([Event.sent 400], st)
    | some (JValue.obj kvs) =>
      match jLookup kvs ("nonce"), jLookup kvs ("signature") with
      | some nv, some sv =>
        if !nv.truthy || !sv.truthy then ([Event.sent 400], st)
        else
          match nv with
          | JValue.str ns =>
            match st.store.validate_and_consume ns req.now with
            | (none, s2) => ([Event.sent 403], { st with store := s2 })
            | (some _, s2) =>
              match sv with
              | JValue.str sb =>
                match ext.b64decode sb with
                | none => ([Event.sent 400], { st with store := s2 })
                | some sigB =>
                  if verify_signature st.hasCrypto ext.crypto st.pubkey (strBytes ns) sigB
                  then ([Event.sent 200, Event.committed true],
                        { st with store := s2, auth := st.auth.set true })
                  else ([Event.sent 403], { st with store := s2 })
              | _ => ([Event.crashed], { st with store := s2 })
          | JValue.num _ => ([Event.sent 403], st)
          | JValue.bool _ => ([Event.sent 403], st)
          | JValue.null => ([Event.sent 403], st)
          | _ => ([Event.crashed], st)
      | _, _ => ([Event.sent 400], st)
    | some _ => ([Event.crashed], st)

/-- Request dispatch: BaseHTTPRequestHandler looks for a do_METHOD
attribute; CallbackHandler defines only do_POST, so every other method
gets the 501 Unsupported method error from the framework. -/
def handleRequest {α : Type} (ext : ExtLib) (st : ServerState α) (req : Request) :
    List Event × ServerState α :=
  if req.method == ("POST") then doPost ext st req
  else ([Event.sent 501], st)

/-- The serve loop of run_server: up to timeout one-second iterations,
stopping early once the outcome cell is set; each iteration handles at
most one inbound request (handle_request with a one-second timeout). -/
def serveLoop {α : Type} (ext : ExtLib) : Nat → ServerState α → List Request → ServerState α
  | 0, st, _ => st
  | _ + 1, st, [] => st
  | fuel + 1, st, r :: rs =>
    if (st.auth.result).isSome then st
    else serveLoop ext fuel (handleRequest ext st r).2 rs

/-- run_server: install the public key, register the challenge in the
(possibly pre-existing, module-level) store, drive the serve loop until
the deadline or a decision, and return whether the result is True. -/
def run_server {α : Type} (ext : ExtLib) (g : ServerState α) (nonce : String) (challenge : α)
    (pubkey : String) (timeout : Nat) (startTime : Int) (reqs : List Request) :
    Bool × ServerState α :=
  match serveLoop ext timeout
      { g with pubkey := pubkey, store := g.store.add nonce challenge startTime } reqs with
  | st1 => (st1.auth.result == some true, st1)

/-- A concrete crypto backend for closed instances: one Ed25519 key, one
EC key, one unsupported key; the accepted signatures are [1,2,3] and [9,9]
over the bytes of the nonce n1. -/
def cbTest : CryptoBackend :=
  { loadKey := fun pem =>
      if pem == ("ED-KEY") then some KeyKind.ed25519
      else if pem == ("EC-KEY") then some KeyKind.ecdsa
      else if pem == ("RSA-KEY") then some KeyKind.other
      else none
  , edVerify := fun pem msg sig =>
      pem == ("ED-KEY") && msg == strBytes ("n1") && sig == [1, 2, 3]
  , ecVerify := fun pem msg sig =>
      pem == ("EC-KEY") && msg == strBytes ("n1") && sig == [9, 9] }

/-- External libraries for a well-formed, correctly signed request. -/
def extOk : ExtLib :=
  { parseJson := fun _ =>
      some (JValue.obj
        [(("nonce" : String), JValue.str ("n1")),
         (("signature" : String), JValue.str ("c2ln"))])
  , b64decode := fun s => if s == ("c2ln") then some [1, 2, 3] else none
  , crypto := cbTest }

/-- External libraries where json.loads always fails. -/
def extParseFail : ExtLib :=
  { parseJson := fun _ => none
  , b64decode := fun _ => none
  , crypto := cbTest }

/-- External libraries for a body whose signature field is not valid
base64 (b64decode raises binascii.Error). -/
def extB64Fail : ExtLib :=
  { parseJson := fun _ =>
      some (JValue.obj
        [(("nonce" : String), JValue.str ("n1")),
         (("signature" : String), JValue.str ("!!!"))])
  , b64decode := fun _ => none
  , crypto := cbTest }

/-- External libraries for a body carrying an empty-string nonce. -/
def extEmptyNonce : ExtLib :=
  { parseJson := fun _ =>
      some (JValue.obj
        [(("nonce" : String), JValue.str ("")),
         (("signature" : String), JValue.str ("c2ln"))])
  , b64decode := fun _ => none
  , crypto := cbTest }

/-- A server state with the nonce n1 registered and fresh. -/
def stOk : ServerState Nat :=
  { store := { ttl := 30, challenges := [(("n1" : String), { data := 7, created := 0 })] }
  , auth := { result := none, event := false }
  , pubkey := ("ED-KEY")
  , hasCrypto := true }

/-- A well-formed POST to the auth endpoint. -/
def reqPost : Request :=
  { method := ("POST"), path := ("/auth/response"), contentLength := 10, body := [], now := 1 }

/-- A GET to the auth endpoint. -/
def reqGet : Request :=
  { method := ("GET"), path := ("/auth/response"), contentLength := 0, body := [], now := 0 }

/-- A POST to a path other than the auth endpoint. -/
def reqWrongPath : Request :=
  { method := ("POST"), path := ("/other"), contentLength := 0, body := [], now := 0 }

/-- A POST whose Content-Length exceeds the 4096-byte limit. -/
def reqBig : Request :=
  { method := ("POST"), path := ("/auth/response"), contentLength := 5000, body := [], now := 0 }

/-- A server state with a challenge registered under the empty string. -/
def stEmpty : ServerState Nat :=
  { store := { ttl := 30, challenges := [(("" : String), { data := 7, created := 0 })] }
  , auth := { result := none, event := false }
  , pubkey := ("ED-KEY")
  , hasCrypto := true }

/-- A fresh module state before run_server, as at interpreter start. -/
def gInit : ServerState Nat :=
  { store := { ttl := 30, challenges := [] }
  , auth := { result := none, event := false }
  , pubkey := ("")
  , hasCrypto := true }

theorem find_eraseKey {β : Type} (l : List (String × β)) (n : String) :
    List.find? (fun p => p.1 == n) (eraseKey l n) = none := by
  induction l with
  | nil => rfl
  | cons a l ih =>
    by_cases h : a.1 == n
    · simp [eraseKey, List.filter_cons, h, ih]
    · simp [eraseKey, List.filter_cons, h, List.find?_cons, ih]

theorem findEntry_consume {α : Type} (s : ChallengeStore α) (n : String) (t : Int) :
    ((s.validate_and_consume n t).2).findEntry n = none := by
  unfold ChallengeStore.validate_and_consume ChallengeStore.findEntry
  cases hf : s.challenges.find? (fun p => p.1 == n) with
  | none => simp [hf, ChallengeStore.findEntry]
  | some p =>
    by_cases h : t - p.2.created > s.ttl <;>
      simp [hf, h, ChallengeStore.findEntry, find_eraseKey]

theorem consume_absent {α : Type} (s : ChallengeStore α) (n : String) (t : Int)
    (h : s.findEntry n = none) : s.validate_and_consume n t = (none, s) := by
  unfold ChallengeStore.findEntry at h
  rw [Option.map_eq_none'] at h
  unfold ChallengeStore.validate_and_consume
  rw [h]

theorem consume_found {α : Type} (s : ChallengeStore α) (n : String) (e : Entry α) (t : Int)
    (hfind : s.findEntry n = some e) :
    s.validate_and_consume n t =
      if t - e.created > s.ttl then (none, { s with challenges := eraseKey s.challenges n })
      else (some e.data, { s with challenges := eraseKey s.challenges n }) := by
  unfold ChallengeStore.findEntry at hfind
  obtain ⟨p, hp, hpe⟩ := Option.map_eq_some'.mp hfind
  unfold ChallengeStore.validate_and_consume
  rw [hp]
  dsimp only
  rw [hpe]

theorem consumeMany_absent {α : Type} (s : ChallengeStore α) (n : String) (ts : List Int)
    (h : s.findEntry n = none) :
    consumeMany s n ts = (List.replicate ts.length none, s) := by
  induction ts with
  | nil => rfl
  | cons t ts ih =>
    simp [consumeMany, consume_absent s n t h, ih, List.replicate_succ]

theorem countP_replicate_none {α : Type} (k : Nat) :
    (List.replicate k (none : Option α)).countP (fun r => r.isSome) = 0 := by
  induction k with
  | zero => rfl
  | succ k ih => simp [List.replicate_succ, List.countP_cons, ih]

theorem consumeMany_le_one {α : Type} (s : ChallengeStore α) (n : String) (ts : List Int) :
    (consumeMany s n ts).1.countP (fun r => r.isSome) ≤ 1 := by
  cases ts with
  | nil => simp [consumeMany]
  | cons t ts =>
    cases hv : s.validate_and_consume n t with
    | mk r s2 =>
      have h2 : s2.findEntry n = none := by
        have := findEntry_consume s n t
        rw [hv] at this
        exact this
      have hrest := consumeMany_absent s2 n ts h2
      simp [consumeMany, hv, hrest, List.countP_cons, countP_replicate_none]
      cases r <;> simp

/-- C1: at most one validate_and_consume call on a given nonce returns a
non-empty result; for a registered, unexpired nonce the first call of
the linearized sequence returns non-empty and every later call returns
empty, so exactly one of many (lock-serialized) concurrent consumers
wins. -/
theorem C1_single_use {α : Type} (s : ChallengeStore α) (n : String) (e : Entry α)
    (t0 : Int) (ts : List Int)
    (hfind : s.findEntry n = some e) (hfresh : t0 - e.created ≤ s.ttl) :
    ((consumeMany s n (t0 :: ts)).1.countP (fun r => r.isSome) = 1)
    ∧ ∀ (s2 : ChallengeStore α) (ts2 : List Int),
        (consumeMany s2 n ts2).1.countP (fun r => r.isSome) ≤ 1 := by
  constructor
  · have hc := consume_found s n e t0 hfind
    rw [if_neg (not_lt.mpr hfresh)] at hc
    have h2 : ({ s with challenges := eraseKey s.challenges n } : ChallengeStore α).findEntry n
        = none := by
      unfold ChallengeStore.findEntry
      simp [find_eraseKey]
    have hrest := consumeMany_absent
      ({ s with challenges := eraseKey s.challenges n } : ChallengeStore α) n ts h2
    simp [consumeMany, hc, hrest, List.countP_cons, countP_replicate_none]
  · intro s2 ts2
    exact consumeMany_le_one s2 n ts2

theorem C1_single_use_witness :
    (consumeMany { ttl := 30, challenges := [(("a" : String), { data := (5 : Nat), created := 0 })] }
        ("a") [4, 6, 7]).1.countP (fun r => r.isSome) = 1 :=
  (C1_single_use { ttl := 30, challenges := [(("a" : String), { data := (5 : Nat), created := 0 })] }
    ("a") { data := 5, created := 0 } 4 [6, 7] (by decide) (by decide)).1

/-- C4: consuming a registered nonce after its TTL has elapsed returns
empty while still deleting the entry (so the expired challenge is not
retryable), and consuming it within the TTL returns the stored data. -/
theorem C4_expiry {α : Type} (s : ChallengeStore α) (n : String) (e : Entry α) (t : Int)
    (hfind : s.findEntry n = some e) :
    (t - e.created > s.ttl →
      s.validate_and_consume n t
          = (none, { s with challenges := eraseKey s.challenges n })
      ∧ ({ s with challenges := eraseKey s.challenges n } : ChallengeStore α).findEntry n = none
      ∧ ∀ t2 : Int,
          ({ s with challenges := eraseKey s.challenges n } : ChallengeStore α).validate_and_consume n t2
            = (none, { s with challenges := eraseKey s.challenges n }))
    ∧ (t - e.created ≤ s.ttl → (s.validate_and_consume n t).1 = some e.data) := by
  have hgone : ({ s with challenges := eraseKey s.challenges n } : ChallengeStore α).findEntry n
      = none := by
    unfold ChallengeStore.findEntry
    simp [find_eraseKey]
  constructor
  · intro h
    have hc := consume_found s n e t hfind
    rw [if_pos h] at hc
    exact ⟨hc, hgone, fun t2 => consume_absent _ n t2 hgone⟩
  · intro h
    have hc := consume_found s n e t hfind
    rw [if_neg (not_lt.mpr h)] at hc
    rw [hc]

theorem C4_expiry_witness :
    ChallengeStore.validate_and_consume
        { ttl := 1, challenges := [(("a" : String), { data := (5 : Nat), created := 0 })] } ("a") 5
      = (none,
         { ttl := 1,
           challenges := eraseKey [(("a" : String), { data := (5 : Nat), created := 0 })] ("a") }) :=
  ((C4_expiry { ttl := 1, challenges := [(("a" : String), { data := (5 : Nat), created := 0 })] }
      ("a") { data := 5, created := 0 } 5 (by decide)).1 (by decide)).1

/-- C2 counterexample: AuthResult.set assigns unconditionally, so a
second set call overwrites and the value observed after both calls is
the second write, not the first. -/
theorem C2_write_once_counterexample :
    ((({ result := none, event := false } : AuthResult Nat).set 1).set 2).result = some 2
    ∧ ((({ result := none, event := false } : AuthResult Nat).set 1).set 2).result ≠ some 1 := by
  decide

/-- C2 (amended): AuthResult.set is last-write-wins — after two set
calls the stored value is the second write; a second set with the same
value (the only case this service exercises, since the handler writes
only True) leaves the cell unchanged. -/
theorem C2_last_write_wins {α : Type} (a : AuthResult α) (v w : α) :
    ((a.set v).set w).result = some w
    ∧ (v = w → (a.set v).set w = a.set v) := by
  refine ⟨rfl, ?_⟩
  intro h
  subst h
  rfl

theorem C2_last_write_wins_witness :
    ((({ result := none, event := false } : AuthResult Nat).set 3).set 3)
      = ({ result := none, event := false } : AuthResult Nat).set 3 :=
  (C2_last_write_wins { result := none, event := false } 3 3).2 rfl

/-- C3: verify_signature is total and fail-closed — it returns false
when the cryptography package is missing, when the PEM does not load,
and when the key family is unsupported; it returns true only when the
backend verification for one of the two supported families succeeds, so
every library failure collapses to false. -/
theorem C3_fail_closed (hc : Bool) (cb : CryptoBackend) (pem : String) (msg sig : List Nat) :
    (hc = false → verify_signature hc cb pem msg sig = false)
    ∧ (cb.loadKey pem = none → verify_signature hc cb pem msg sig = false)
    ∧ (cb.loadKey pem = some KeyKind.other → verify_signature hc cb pem msg sig = false)
    ∧ (verify_signature hc cb pem msg sig = true →
        hc = true
        ∧ ((cb.loadKey pem = some KeyKind.ed25519 ∧ cb.edVerify pem msg sig = true)
           ∨ (cb.loadKey pem = some KeyKind.ecdsa ∧ cb.ecVerify pem msg sig = true))) := by
  refine ⟨?_, ?_, ?_, ?_⟩
  · intro h
    simp [verify_signature, h]
  · intro h
    cases hc <;> simp [verify_signature, h]
  · intro h
    cases hc <;> simp [verify_signature, h]
  · intro h
    unfold verify_signature at h
    cases hc with
    | false => simp at h
    | true =>
      refine ⟨rfl, ?_⟩
      cases hk : cb.loadKey pem with
      | none =>
        rw [hk] at h
        simp at h
      | some k =>
        rw [hk] at h
        cases k with
        | ed25519 => exact Or.inl ⟨rfl, by simpa using h⟩
        | ecdsa => exact Or.inr ⟨rfl, by simpa using h⟩
        | other => simp at h

theorem C3_fail_closed_witness :
    verify_signature false cbTest ("ED-KEY") [] [] = false :=
  (C3_fail_closed false cbTest ("ED-KEY") [] []).1 rfl

theorem dp_wrong_path {α : Type} (ext : ExtLib) (st : ServerState α) (req : Request)
    (hp : req.path ≠ ("/auth/response")) :
    doPost ext st req = ([Event.sent 404], st) := by
  unfold doPost
  simp [hp]

theorem dp_oversize {α : Type} (ext : ExtLib) (st : ServerState α) (req : Request)
    (hp : req.path = ("/auth/response")) (hbig : req.contentLength > 4096) :
    doPost ext st req = ([Event.sent 413], st) := by
  unfold doPost
  simp [hp, hbig]

theorem dp_parse_fail {α : Type} (ext : ExtLib) (st : ServerState α) (req : Request)
    (hp : req.path = ("/auth/response")) (hlen : req.contentLength ≤ 4096)
    (hjson : ext.parseJson (req.body.take req.contentLength) = none) :
    doPost ext st req = ([Event.sent 400], st) := by
  have hlen2 : ¬ req.contentLength > 4096 := not_lt.mpr hlen
  unfold doPost
  simp [hp, hlen2, hjson]

theorem dp_falsy {α : Type} (ext : ExtLib) (st : ServerState α) (req : Request)
    (kvs : List (String × JValue))
    (hp : req.path = ("/auth/response")) (hlen : req.contentLength ≤ 4096)
    (hjson : ext.parseJson (req.body.take req.contentLength) = some (JValue.obj kvs))
    (hfalsy : truthyOpt (jLookup kvs ("nonce")) = false
      ∨ truthyOpt (jLookup kvs ("signature")) = false) :
    doPost ext st req = ([Event.sent 400], st) := by
  have hlen2 : ¬ req.contentLength > 4096 := not_lt.mpr hlen
  cases hn : jLookup kvs ("nonce") with
  | none =>
    cases hs2 : jLookup kvs ("signature") with
    | none => simp [doPost, hp, hlen2, hjson, hn, hs2]
    | some sv => simp [doPost, hp, hlen2, hjson, hn, hs2]
  | some nv =>
    cases hs2 : jLookup kvs ("signature") with
    | none => simp [doPost, hp, hlen2, hjson, hn, hs2]
    | some sv =>
      rcases hfalsy with hf | hf
      · rw [hn] at hf
        simp only [truthyOpt] at hf
        simp [doPost, hp, hlen2, hjson, hn, hs2, hf]
      · rw [hs2] at hf
        simp only [truthyOpt] at hf
        simp [doPost, hp, hlen2, hjson, hn, hs2, hf]

theorem dp_b64fail {α : Type} (ext : ExtLib) (st : ServerState α) (req : Request)
    (kvs : List (String × JValue)) (ns sb : String) (e : Entry α)
    (hp : req.path = ("/auth/response")) (hlen : req.contentLength ≤ 4096)
    (hjson : ext.parseJson (req.body.take req.contentLength) = some (JValue.obj kvs))
    (hn : jLookup kvs ("nonce") = some (JValue.str ns)) (hns : ns ≠ "")
    (hs : jLookup kvs ("signature") = some (JValue.str sb)) (hsb : sb ≠ "")
    (hfind : st.store.findEntry ns = some e)
    (hfresh : req.now - e.created ≤ st.store.ttl)
    (hb64 : ext.b64decode sb = none) :
    doPost ext st req
      = ([Event.sent 400],
         { st with store := { st.store with challenges := eraseKey st.store.challenges ns } }) := by
  have hlen2 : ¬ req.contentLength > 4096 := not_lt.mpr hlen
  have hc := consume_found st.store ns e req.now hfind
  rw [if_neg (not_lt.mpr hfresh)] at hc
  simp [doPost, hp, hlen2, hjson, hn, hs, JValue.truthy, hns, hsb, hc, hb64]

/-- C5 counterexample: a POST whose signature field is not decodable
base64 gets the claimed 400 response, but the claimed absence of state
mutation is false — the registered nonce n1 has already been consumed
by the time the decode fails, so the registry changed. -/
theorem C5_counterexample :
    (doPost extB64Fail stOk reqPost).1 = [Event.sent 400]
    ∧ stOk.store.findEntry ("n1") = some { data := 7, created := 0 }
    ∧ (doPost extB64Fail stOk reqPost).2.store.findEntry ("n1") = none := by
  decide

/-- C5 (amended): malformed JSON and missing-or-falsy fields get a 400
with no state mutation; a signature that fails base64 decoding also
gets a 400, but only after validate_and_consume has already removed the
registered nonce, so for that case the registry is mutated and the
failure is not recoverable with the same nonce. -/
theorem C5_malformed_input {α : Type} (ext : ExtLib) (st : ServerState α) (req : Request)
    (hp : req.path = ("/auth/response")) (hlen : req.contentLength ≤ 4096) :
    (ext.parseJson (req.body.take req.contentLength) = none →
      doPost ext st req = ([Event.sent 400], st))
    ∧ (∀ kvs : List (String × JValue),
        ext.parseJson (req.body.take req.contentLength) = some (JValue.obj kvs) →
        (truthyOpt (jLookup kvs ("nonce")) = false
          ∨ truthyOpt (jLookup kvs ("signature")) = false) →
        doPost ext st req = ([Event.sent 400], st))
    ∧ (∀ (kvs : List (String × JValue)) (ns sb : String) (e : Entry α),
        ext.parseJson (req.body.take req.contentLength) = some (JValue.obj kvs) →
        jLookup kvs ("nonce") = some (JValue.str ns) → ns ≠ "" →
        jLookup kvs ("signature") = some (JValue.str sb) → sb ≠ "" →
        st.store.findEntry ns = some e →
        req.now - e.created ≤ st.store.ttl →
        ext.b64decode sb = none →
        doPost ext st req
          = ([Event.sent 400],
             { st with store := { st.store with challenges := eraseKey st.store.challenges ns } })
        ∧ ({ st.store with challenges := eraseKey st.store.challenges ns } : ChallengeStore α).findEntry ns
            = none) := by
  refine ⟨fun hjson => dp_parse_fail ext st req hp hlen hjson,
          fun kvs hjson hfalsy => dp_falsy ext st req kvs hp hlen hjson hfalsy,
          fun kvs ns sb e hjson hn hns hs hsb hfind hfresh hb64 => ?_⟩
  refine ⟨dp_b64fail ext st req kvs ns sb e hp hlen hjson hn hns hs hsb hfind hfresh hb64, ?_⟩
  unfold ChallengeStore.findEntry
  simp [find_eraseKey]

theorem C5_malformed_input_witness :
    doPost extParseFail stOk reqPost = ([Event.sent 400], stOk) :=
  (C5_malformed_input extParseFail stOk reqPost rfl (by decide)).1 rfl

/-- C6: a POST to the auth endpoint carrying a registered unexpired
nonce and a base64 signature that verifies over the nonce bytes yields
the 200 acknowledgment followed by the commit of the outcome to true,
in that order, with the nonce removed from the registry. -/
theorem C6_success {α : Type} (ext : ExtLib) (st : ServerState α) (req : Request)
    (kvs : List (String × JValue)) (ns sb : String) (sigB : List Nat) (e : Entry α)
    (hp : req.path = ("/auth/response")) (hlen : req.contentLength ≤ 4096)
    (hjson : ext.parseJson (req.body.take req.contentLength) = some (JValue.obj kvs))
    (hn : jLookup kvs ("nonce") = some (JValue.str ns)) (hns : ns ≠ "")
    (hs : jLookup kvs ("signature") = some (JValue.str sb)) (hsb : sb ≠ "")
    (hfind : st.store.findEntry ns = some e)
    (hfresh : req.now - e.created ≤ st.store.ttl)
    (hb64 : ext.b64decode sb = some sigB)
    (hver : verify_signature st.hasCrypto ext.crypto st.pubkey (strBytes ns) sigB = true) :
    doPost ext st req
      = ([Event.sent 200, Event.committed true],
         { st with store := { st.store with challenges := eraseKey st.store.challenges ns },
                   auth := st.auth.set true }) := by
  have hlen2 : ¬ req.contentLength > 4096 := not_lt.mpr hlen
  have hc := consume_found st.store ns e req.now hfind
  rw [if_neg (not_lt.mpr hfresh)] at hc
  simp [doPost, hp, hlen2, hjson, hn, hs, JValue.truthy, hns, hsb, hc, hb64, hver]

theorem C6_success_witness :
    doPost extOk stOk reqPost
      = ([Event.sent 200, Event.committed true],
         { stOk with store := { stOk.store with challenges := eraseKey stOk.store.challenges ("n1") },
                     auth := stOk.auth.set true }) :=
  C6_success extOk stOk reqPost
    [(("nonce" : String), JValue.str ("n1")), (("signature" : String), JValue.str ("c2ln"))]
    ("n1") ("c2ln") [1, 2, 3] { data := 7, created := 0 }
    rfl (by decide) rfl rfl (by decide) rfl (by decide) (by decide) (by decide) (by decide)
    (by decide)

/-- C7 counterexample: a GET to the auth endpoint is answered with the
501 Unsupported method error of BaseHTTPRequestHandler (the class only
defines do_POST), not with the 404 the claim requires for every
non-designated method or path. -/
theorem C7_counterexample :
    (handleRequest extOk stOk reqGet).1 = [Event.sent 501]
    ∧ (Event.sent 501 : Event) ≠ Event.sent 404 := by
  decide

/-- C7 (amended): a POST to any path other than /auth/response is
rejected with 404; a request with any method other than POST is
rejected with 501 (Unsupported method) by the HTTP framework, since the
handler defines only do_POST. Neither touches the server state. -/
theorem C7_method_path {α : Type} (ext : ExtLib) (st : ServerState α) (req : Request) :
    (req.method = ("POST") → req.path ≠ ("/auth/response") →
      handleRequest ext st req = ([Event.sent 404], st))
    ∧ (req.method ≠ ("POST") → handleRequest ext st req = ([Event.sent 501], st)) := by
  constructor
  · intro hm hpath
    have hd := dp_wrong_path ext st req hpath
    unfold handleRequest
    simp [hm, hd]
  · intro hm
    unfold handleRequest
    simp [hm]

theorem C7_method_path_witness :
    handleRequest extOk stOk reqWrongPath = ([Event.sent 404], stOk) :=
  (C7_method_path extOk stOk reqWrongPath).1 rfl (by decide)

/-- C9: a POST to the auth endpoint whose Content-Length exceeds 4096
is answered 413 with no state change, and the answer is computed
without reading the body at all — the result is identical for every
possible body byte stream, so nothing is buffered or parsed. -/
theorem C9_oversized {α : Type} (ext : ExtLib) (st : ServerState α) (req : Request)
    (hp : req.path = ("/auth/response")) (hbig : req.contentLength > 4096) :
    doPost ext st req = ([Event.sent 413], st)
    ∧ ∀ b : List Nat, doPost ext st { req with body := b } = ([Event.sent 413], st) := by
  refine ⟨dp_oversize ext st req hp hbig, fun b => ?_⟩
  exact dp_oversize ext st { req with body := b } hp hbig

theorem C9_oversized_witness :
    doPost extOk stOk reqBig = ([Event.sent 413], stOk) :=
  (C9_oversized extOk stOk reqBig rfl (by decide)).1

/-- C10: a parsed JSON body whose nonce or signature field is missing or
falsy (empty string, zero, false, null, empty list or object) is
rejected 400 with the state untouched — the registry is not consulted,
so even a challenge registered under the empty string stays registered
and never reaches verification. -/
theorem C10_falsy_fields {α : Type} (ext : ExtLib) (st : ServerState α) (req : Request)
    (kvs : List (String × JValue))
    (hp : req.path = ("/auth/response")) (hlen : req.contentLength ≤ 4096)
    (hjson : ext.parseJson (req.body.take req.contentLength) = some (JValue.obj kvs))
    (hfalsy : truthyOpt (jLookup kvs ("nonce")) = false
      ∨ truthyOpt (jLookup kvs ("signature")) = false) :
    doPost ext st req = ([Event.sent 400], st) :=
  dp_falsy ext st req kvs hp hlen hjson hfalsy

theorem C10_falsy_fields_witness :
    doPost extEmptyNonce stEmpty reqPost = ([Event.sent 400], stEmpty) :=
  C10_falsy_fields extEmptyNonce stEmpty reqPost
    [(("nonce" : String), JValue.str ("")), (("signature" : String), JValue.str ("c2ln"))]
    rfl (by decide) rfl (Or.inl (by decide))

theorem dp_commit_shape {α : Type} (ext : ExtLib) (st : ServerState α) (req : Request) :
    ((doPost ext st req).2.auth = st.auth
      ∧ ∀ v : Bool, Event.committed v ∉ (doPost ext st req).1)
    ∨ ((doPost ext st req).2.auth = st.auth.set true
      ∧ (doPost ext st req).1 = [Event.sent 200, Event.committed true]) := by
  unfold doPost
  repeat' split
  all_goals first
    | (right; exact ⟨rfl, rfl⟩)
    | (left; refine ⟨rfl, fun v => ?_⟩; simp)

theorem hr_commit_shape {α : Type} (ext : ExtLib) (st : ServerState α) (req : Request) :
    ((handleRequest ext st req).2.auth = st.auth
      ∧ ∀ v : Bool, Event.committed v ∉ (handleRequest ext st req).1)
    ∨ ((handleRequest ext st req).2.auth = st.auth.set true
      ∧ (handleRequest ext st req).1 = [Event.sent 200, Event.committed true]) := by
  unfold handleRequest
  split
  · exact dp_commit_shape ext st req
  · left
    exact ⟨rfl, fun v => by simp⟩

theorem serveLoop_none {α : Type} (ext : ExtLib) (fuel : Nat) (st : ServerState α)
    (reqs : List Request)
    (h0 : st.auth.result = none)
    (h : ∀ (st2 : ServerState α) (r : Request), r ∈ reqs →
        Event.committed true ∉ (handleRequest ext st2 r).1) :
    (serveLoop ext fuel st reqs).auth.result = none := by
  induction fuel generalizing st reqs with
  | zero => simpa [serveLoop] using h0
  | succ fuel ih =>
    cases reqs with
    | nil => simpa [serveLoop] using h0
    | cons r rs =>
      rw [serveLoop, if_neg (by simp [h0])]
      have hshape := hr_commit_shape ext st r
      rcases hshape with ⟨hauth, _⟩ | ⟨_, htrace⟩
      · exact ih (handleRequest ext st r).2 rs (by rw [hauth]; exact h0)
          (fun st2 q hq => h st2 q (List.mem_cons_of_mem r hq))
      · exfalso
        exact h st r (List.mem_cons_self r rs) (by rw [htrace]; simp)

/-- C8: when no inbound request can commit the outcome, run_server
returns false after its fuel-bounded serve loop (the loop runs at most
timeout one-second handle_request iterations and the thread join adds a
two-second grace), the outcome cell is still undecided (None) at the
end, and in general the handler only ever commits true — no execution
path commits false, which is merely the default read at the deadline. -/
theorem C8_timeout {α : Type} (ext : ExtLib) (g : ServerState α) (nonce : String)
    (challenge : α) (pubkey : String) (timeout : Nat) (startTime : Int)
    (reqs : List Request)
    (h0 : g.auth.result = none)
    (hnone : ∀ (st : ServerState α) (r : Request), r ∈ reqs →
        Event.committed true ∉ (handleRequest ext st r).1) :
    (run_server ext g nonce challenge pubkey timeout startTime reqs).1 = false
    ∧ (run_server ext g nonce challenge pubkey timeout startTime reqs).2.auth.result = none
    ∧ ∀ (st : ServerState α) (r : Request) (v : Bool),
        Event.committed v ∈ (handleRequest ext st r).1 → v = true := by
  have hloop := serveLoop_none ext timeout
    { g with pubkey := pubkey, store := g.store.add nonce challenge startTime } reqs h0 hnone
  refine ⟨?_, ?_, ?_⟩
  · simp [run_server, hloop]
  · simpa [run_server] using hloop
  · intro st r v hv
    rcases hr_commit_shape ext st r with ⟨_, hmem⟩ | ⟨_, htrace⟩
    · exact absurd hv (hmem v)
    · rw [htrace] at hv
      simp at hv
      exact hv

theorem C8_timeout_witness :
    (run_server extParseFail gInit ("n1") (7 : Nat) ("unused") 5 0 []).1 = false :=
  (C8_timeout extParseFail gInit ("n1") 7 ("unused") 5 0 [] rfl
    (fun _st r hr => absurd hr (List.not_mem_nil r))).1
